import Mathlib

/-!
Verification of the CSP dispatch MILP construction
(`hybrid/dispatch/power_sources/csp_dispatch.py`).

The pyomo model is shallowly embedded over the rationals: every continuous
or binary decision variable of one period block becomes a field of
`CspBlock`, every per-period parameter a field of `CspParams`, and each
pyomo `Constraint` becomes one conjunct of a decidable feasibility
predicate.  Floating point numbers are modelled by rationals, with the
IEEE NaN sentinel modelled by `Option.none`.  Python integer truncation
(`int(...)`) is `pytrunc`, and the builtin `round` (banker's rounding to
`round_digits` decimal places) is `pyRound`.
-/

/-- Python `int(x)` truncation toward zero, on rationals. -/
def pytrunc (q : ℚ) : ℤ :=
  if 0 ≤ q then ⌊q⌋ else ⌈q⌉

/-- Round-half-to-even to the nearest integer (semantics of Python `round`). -/
def roundHalfEven (q : ℚ) : ℤ :=
  if q - ⌊q⌋ < 1/2 then ⌊q⌋
  else if 1/2 < q - ⌊q⌋ then ⌊q⌋ + 1
  else if Even (⌊q⌋ : ℤ) then ⌊q⌋ else ⌊q⌋ + 1

/-- Python `round(q, d)`: round-half-to-even at `d` decimal digits. -/
def pyRound (d : ℕ) (q : ℚ) : ℚ :=
  (roundHalfEven (q * 10 ^ d) : ℚ) / 10 ^ d

/-- A pyomo `Binary`-domain variable takes the value 0 or 1. -/
def isBinary (x : ℚ) : Prop := x = 0 ∨ x = 1

instance (x : ℚ) : Decidable (isBinary x) := by
  unfold isBinary; infer_instance

/-- Per-period parameters of one dispatch block, from
`_create_storage_parameters`, `_create_receiver_parameters` and
`_create_cycle_parameters`. -/
structure CspParams where
  time_duration : ℚ
  storage_capacity : ℚ
  cost_per_field_generation : ℚ
  cost_per_field_start : ℚ
  available_thermal_generation : ℚ
  field_startup_losses : ℚ
  receiver_required_startup_energy : ℚ
  receiver_pumping_losses : ℚ
  minimum_receiver_power : ℚ
  allowable_receiver_startup_power : ℚ
  field_track_losses : ℚ
  cost_per_cycle_generation : ℚ
  cost_per_cycle_start : ℚ
  cost_per_change_thermal_input : ℚ
  cycle_ambient_efficiency_correction : ℚ
  condenser_losses : ℚ
  cycle_required_startup_energy : ℚ
  cycle_nominal_efficiency : ℚ
  cycle_performance_slope : ℚ
  cycle_pumping_losses : ℚ
  allowable_cycle_startup_power : ℚ
  minimum_cycle_thermal_power : ℚ
  maximum_cycle_thermal_power : ℚ
  maximum_cycle_power : ℚ


/-- Decision variables of one dispatch block, from
`_create_storage_variables`, `_create_receiver_variables` and
`_create_cycle_variables`. -/
structure CspBlock where
  thermal_energy_storage : ℚ
  previous_thermal_energy_storage : ℚ
  receiver_startup_inventory : ℚ
  receiver_thermal_power : ℚ
  receiver_startup_consumption : ℚ
  is_field_generating : ℚ
  is_field_starting : ℚ
  incur_field_start : ℚ
  previous_receiver_startup_inventory : ℚ
  was_field_generating : ℚ
  was_field_starting : ℚ
  system_load : ℚ
  cycle_startup_inventory : ℚ
  cycle_generation : ℚ
  cycle_thermal_ramp : ℚ
  cycle_thermal_power : ℚ
  is_cycle_generating : ℚ
  is_cycle_starting : ℚ
  incur_cycle_start : ℚ
  previous_cycle_startup_inventory : ℚ
  previous_cycle_thermal_power : ℚ
  was_cycle_generating : ℚ
  was_cycle_starting : ℚ


/-- Variable domains and bounds declared in `_create_storage_variables`,
`_create_receiver_variables` and `_create_cycle_variables`:
`NonNegativeReals` domains, `(0, storage_capacity)` and
`(0, maximum_cycle_thermal_power)` bounds, and `Binary` domains. -/
def blockDomain (p : CspParams) (b : CspBlock) : Prop :=
  0 ≤ b.thermal_energy_storage ∧ b.thermal_energy_storage ≤ p.storage_capacity ∧
  0 ≤ b.previous_thermal_energy_storage ∧
  b.previous_thermal_energy_storage ≤ p.storage_capacity ∧
  0 ≤ b.receiver_startup_inventory ∧
  0 ≤ b.receiver_thermal_power ∧
  0 ≤ b.receiver_startup_consumption ∧
  isBinary b.is_field_generating ∧
  isBinary b.is_field_starting ∧
  isBinary b.incur_field_start ∧
  0 ≤ b.previous_receiver_startup_inventory ∧
  isBinary b.was_field_generating ∧
  isBinary b.was_field_starting ∧
  0 ≤ b.system_load ∧
  0 ≤ b.cycle_startup_inventory ∧
  0 ≤ b.cycle_generation ∧
  0 ≤ b.cycle_thermal_ramp ∧ b.cycle_thermal_ramp ≤ p.maximum_cycle_thermal_power ∧
  0 ≤ b.cycle_thermal_power ∧ b.cycle_thermal_power ≤ p.maximum_cycle_thermal_power ∧
  isBinary b.is_cycle_generating ∧
  isBinary b.is_cycle_starting ∧
  isBinary b.incur_cycle_start ∧
  0 ≤ b.previous_cycle_startup_inventory ∧
  0 ≤ b.previous_cycle_thermal_power ∧
  b.previous_cycle_thermal_power ≤ p.maximum_cycle_thermal_power ∧
  isBinary b.was_cycle_generating ∧
  isBinary b.was_cycle_starting

/-- The `storage_inventory` thermal energy balance constraint of
`_create_storage_constraints`. -/
def storage_constraints (p : CspParams) (b : CspBlock) : Prop :=
  b.thermal_energy_storage - b.previous_thermal_energy_storage =
    p.time_duration * (b.receiver_thermal_power
      - (p.allowable_cycle_startup_power * b.is_cycle_starting
         + b.cycle_thermal_power))

/-- The receiver and solar field constraints of `_create_receiver_constraints`,
in source order. -/
def receiver_constraints (p : CspParams) (b : CspBlock) : Prop :=
  b.receiver_startup_inventory ≤
    b.previous_receiver_startup_inventory
      + p.time_duration * b.receiver_startup_consumption ∧
  b.receiver_startup_inventory ≤
    p.receiver_required_startup_energy * b.is_field_starting ∧
  b.is_field_generating ≤
    b.receiver_startup_inventory / p.receiver_required_startup_energy
      + b.was_field_generating ∧
  b.is_field_starting + b.was_field_generating ≤ 1 ∧
  b.receiver_startup_consumption ≤
    p.allowable_receiver_startup_power * b.is_field_starting ∧
  b.is_field_starting ≤
    p.available_thermal_generation / p.minimum_receiver_power ∧
  p.available_thermal_generation ≥
    b.receiver_thermal_power + b.receiver_startup_consumption ∧
  b.receiver_thermal_power ≤
    p.available_thermal_generation * b.is_field_generating ∧
  b.receiver_thermal_power ≥
    p.minimum_receiver_power * b.is_field_generating ∧
  b.is_field_generating ≤
    p.available_thermal_generation / p.minimum_receiver_power ∧
  b.incur_field_start ≥ b.is_field_starting - b.was_field_starting

/-- The power cycle constraints of `_create_cycle_constraints`, in source
order, including the performance curve and the system load balance. -/
def cycle_constraints (p : CspParams) (b : CspBlock) : Prop :=
  b.cycle_startup_inventory ≤
    b.previous_cycle_startup_inventory
      + p.time_duration * p.allowable_cycle_startup_power * b.is_cycle_starting ∧
  b.cycle_startup_inventory ≤
    p.cycle_required_startup_energy * b.is_cycle_starting ∧
  b.is_cycle_generating ≤
    b.cycle_startup_inventory / p.cycle_required_startup_energy
      + b.was_cycle_generating ∧
  b.is_cycle_starting + b.was_cycle_generating ≤ 1 ∧
  b.cycle_thermal_power ≤
    p.maximum_cycle_thermal_power * b.is_cycle_generating ∧
  b.cycle_thermal_power ≥
    p.minimum_cycle_thermal_power * b.is_cycle_generating ∧
  b.cycle_generation =
    (p.cycle_ambient_efficiency_correction / p.cycle_nominal_efficiency)
      * (p.cycle_performance_slope * b.cycle_thermal_power
         + (p.maximum_cycle_power
            - p.cycle_performance_slope * p.maximum_cycle_thermal_power)
           * b.is_cycle_generating) ∧
  b.cycle_thermal_ramp ≥
    b.cycle_thermal_power - b.previous_cycle_thermal_power ∧
  b.incur_cycle_start ≥ b.is_cycle_starting - b.was_cycle_starting ∧
  b.system_load =
    b.cycle_generation * p.condenser_losses
      + p.receiver_pumping_losses * (b.receiver_thermal_power
          + b.receiver_startup_consumption)
      + p.cycle_pumping_losses * (b.cycle_thermal_power
          + p.allowable_cycle_startup_power * b.is_cycle_starting)
      + p.field_track_losses * b.is_field_generating
      + (p.field_startup_losses / p.time_duration) * b.is_field_starting

/-- A feasible assignment of one period block: variable domains plus the
three constraint groups installed by `dispatch_block_rule`. -/
def blockFeasible (p : CspParams) (b : CspBlock) : Prop :=
  blockDomain p b ∧ storage_constraints p b ∧
    receiver_constraints p b ∧ cycle_constraints p b

instance (p : CspParams) (b : CspBlock) : Decidable (blockFeasible p b) := by
  unfold blockFeasible blockDomain storage_constraints receiver_constraints
    cycle_constraints
  infer_instance

/-- Horizon-level initial-condition parameters, from
`_create_storage_linking_constraints`, `_create_receiver_linking_constraints`
and `_create_cycle_linking_constraints`. -/
structure HorizonInit where
  initial_thermal_energy_storage : ℚ
  initial_receiver_startup_inventory : ℚ
  is_field_generating_initial : ℚ
  is_field_starting_initial : ℚ
  initial_cycle_startup_inventory : ℚ
  initial_cycle_thermal_power : ℚ
  is_cycle_generating_initial : ℚ
  is_cycle_starting_initial : ℚ

/-- `tes_linking_rule`: the horizon's blocks are a contiguous arena
indexed `0, 1, ...`, the first index being `0`. -/
def tes_linking_rule (init : HorizonInit) (blocks : ℕ → CspBlock) (t : ℕ) : Prop :=
  if t = 0 then
    (blocks t).previous_thermal_energy_storage = init.initial_thermal_energy_storage
  else
    (blocks t).previous_thermal_energy_storage = (blocks (t - 1)).thermal_energy_storage

/-- `receiver_startup_inventory_linking_rule`. -/
def receiver_startup_inventory_linking_rule
    (init : HorizonInit) (blocks : ℕ → CspBlock) (t : ℕ) : Prop :=
  if t = 0 then
    (blocks t).previous_receiver_startup_inventory = init.initial_receiver_startup_inventory
  else
    (blocks t).previous_receiver_startup_inventory = (blocks (t - 1)).receiver_startup_inventory

/-- `field_generating_linking_rule`. -/
def field_generating_linking_rule
    (init : HorizonInit) (blocks : ℕ → CspBlock) (t : ℕ) : Prop :=
  if t = 0 then
    (blocks t).was_field_generating = init.is_field_generating_initial
  else
    (blocks t).was_field_generating = (blocks (t - 1)).is_field_generating

/-- `field_starting_linking_rule`. -/
def field_starting_linking_rule
    (init : HorizonInit) (blocks : ℕ → CspBlock) (t : ℕ) : Prop :=
  if t = 0 then
    (blocks t).was_field_starting = init.is_field_starting_initial
  else
    (blocks t).was_field_starting = (blocks (t - 1)).is_field_starting

/-- `cycle_startup_inventory_linking_rule`. -/
def cycle_startup_inventory_linking_rule
    (init : HorizonInit) (blocks : ℕ → CspBlock) (t : ℕ) : Prop :=
  if t = 0 then
    (blocks t).previous_cycle_startup_inventory = init.initial_cycle_startup_inventory
  else
    (blocks t).previous_cycle_startup_inventory = (blocks (t - 1)).cycle_startup_inventory

/-- `cycle_thermal_power_linking_rule`. -/
def cycle_thermal_power_linking_rule
    (init : HorizonInit) (blocks : ℕ → CspBlock) (t : ℕ) : Prop :=
  if t = 0 then
    (blocks t).previous_cycle_thermal_power = init.initial_cycle_thermal_power
  else
    (blocks t).previous_cycle_thermal_power = (blocks (t - 1)).cycle_thermal_power

/-- `cycle_generating_linking_rule`. -/
def cycle_generating_linking_rule
    (init : HorizonInit) (blocks : ℕ → CspBlock) (t : ℕ) : Prop :=
  if t = 0 then
    (blocks t).was_cycle_generating = init.is_cycle_generating_initial
  else
    (blocks t).was_cycle_generating = (blocks (t - 1)).is_cycle_generating

/-- `cycle_starting_linking_rule`. -/
def cycle_starting_linking_rule
    (init : HorizonInit) (blocks : ℕ → CspBlock) (t : ℕ) : Prop :=
  if t = 0 then
    (blocks t).was_cycle_starting = init.is_cycle_starting_initial
  else
    (blocks t).was_cycle_starting = (blocks (t - 1)).is_cycle_starting

/-- All eight families of linking constraints installed by
`_create_linking_constraints`, one instance of each rule per period of a
horizon of `n` blocks. -/
def linking_constraints
    (init : HorizonInit) (blocks : ℕ → CspBlock) (n : ℕ) : Prop :=
  ∀ t < n,
    tes_linking_rule init blocks t ∧
    receiver_startup_inventory_linking_rule init blocks t ∧
    field_generating_linking_rule init blocks t ∧
    field_starting_linking_rule init blocks t ∧
    cycle_startup_inventory_linking_rule init blocks t ∧
    cycle_thermal_power_linking_rule init blocks t ∧
    cycle_generating_linking_rule init blocks t ∧
    cycle_starting_linking_rule init blocks t

/-- Body of the lookup loop in `set_cycle_ambient_corrections`:
`i = max(0, min(int((Tdb[j] - Tpts[0]) / Tstep), npts - 2))`, where
`Tstep = Tpts[1] - Tpts[0]`. -/
def ambient_index (Tpts : List ℚ) (T : ℚ) : ℕ :=
  let Tstep := Tpts.getD 1 0 - Tpts.getD 0 0
  (max 0 (min (pytrunc ((T - Tpts.getD 0 0) / Tstep)) ((Tpts.length : ℤ) - 2))).toNat

/-- Body of the interpolation loop in `set_cycle_ambient_corrections`:
`r = (Tdb[j] - Tpts[i]) / Tstep` and `ypts[i] + (ypts[i+1] - ypts[i]) * r`,
applied to either the efficiency or the condenser-loss table. -/
def ambient_interp (Tpts ypts : List ℚ) (T : ℚ) : ℚ :=
  let Tstep := Tpts.getD 1 0 - Tpts.getD 0 0
  let i := ambient_index Tpts T
  ypts.getD i 0 + (ypts.getD (i + 1) 0 - ypts.getD i 0) * ((T - Tpts.getD i 0) / Tstep)

/-- `set_cycle_ambient_corrections(Tdb, Tpts, etapts, wcondfpts)`: for each
period, interpolates both the efficiency-correction and the condenser-loss
tables at that period's dry-bulb temperature. -/
def set_cycle_ambient_corrections
    (Tdb Tpts etapts wcondfpts : List ℚ) : List ℚ × List ℚ :=
  (Tdb.map (ambient_interp Tpts etapts), Tdb.map (ambient_interp Tpts wcondfpts))

/-- One iteration of the endpoint loop of
`set_linearized_cycle_part_load_params`: find the bracketing table interval
for load fraction `f` and linearly interpolate the efficiency there. -/
def part_load_endpoint_eta (norm_heat_pts efficiency_pts : List ℚ) (f : ℚ) : ℚ :=
  let step := norm_heat_pts.getD 1 0 - norm_heat_pts.getD 0 0
  let p := (max 0 (min (pytrunc ((f - norm_heat_pts.getD 0 0) / step))
      ((norm_heat_pts.length : ℤ) - 2))).toNat
  efficiency_pts.getD p 0
    + (efficiency_pts.getD (p + 1) 0 - efficiency_pts.getD p 0) / step
      * (f - norm_heat_pts.getD p 0)

/-- `set_linearized_cycle_part_load_params`: returns the pair
`(cycle_performance_slope, maximum_cycle_power)` computed from the
tabulated part-load efficiencies via the two-point line through the
operating-range endpoints. -/
def set_linearized_cycle_part_load_params
    (q_pb_design cycle_cutoff_frac cycle_max_frac maximum_cycle_thermal_power : ℚ)
    (norm_heat_pts efficiency_pts : List ℚ) : ℚ × ℚ :=
  let eta0 := part_load_endpoint_eta norm_heat_pts efficiency_pts cycle_cutoff_frac
  let eta1 := part_load_endpoint_eta norm_heat_pts efficiency_pts cycle_max_frac
  let q0 := cycle_cutoff_frac * q_pb_design
  let q1 := cycle_max_frac * q_pb_design
  let etap := (q1 * eta1 - q0 * eta0) / (q1 - q0)
  let b := q1 * (eta1 - etap)
  (etap, b + maximum_cycle_thermal_power * etap)

/-- Right-hand side of the `cycle_performance_curve` constraint. -/
def cycle_performance_rhs
    (corr eta_nominal slope max_power max_thermal q_dot is_gen : ℚ) : ℚ :=
  (corr / eta_nominal)
    * (slope * q_dot + (max_power - slope * max_thermal) * is_gen)

/-- Fallback branch of `set_part_load_cycle_parameters` when no usable
performance table is present: slope is the nominal efficiency and the
maximum cycle power is the maximum thermal power times the nominal
efficiency. -/
def part_load_fallback
    (cycle_nominal_efficiency maximum_cycle_thermal_power : ℚ) : ℚ × ℚ :=
  (cycle_nominal_efficiency,
   maximum_cycle_thermal_power * cycle_nominal_efficiency)

/-- Fallback branch of `set_ambient_temperature_cycle_parameters` when no
usable table is present: every period's ambient efficiency correction is the
nominal efficiency and every period's condenser loss is zero. -/
def ambient_correction_fallback (cycle_nominal_efficiency : ℚ) (n : ℕ) : List ℚ × List ℚ :=
  (List.replicate n cycle_nominal_efficiency, List.replicate n 0)

/-- Initial cycle startup inventory derived by `update_initial_conditions`,
from the required startup energy and the plant state's
`pc_startup_energy_remain_initial` (in kWh; `none` models the IEEE NaN that
ssc reports once startup is complete, detected in the source by the
self-inequality test `x != x`). -/
def initial_cycle_startup_inventory_value
    (cycle_required_startup_energy : ℚ)
    (pc_startup_energy_remain_initial : Option ℚ) : ℚ :=
  match pc_startup_energy_remain_initial with
  | none => cycle_required_startup_energy
  | some remain =>
    let v := max 0 (cycle_required_startup_energy - remain / 1000)
    if (1 - 1/1000000) * cycle_required_startup_energy < v then
      cycle_required_startup_energy
    else v

/-- Initial thermal energy storage derived by `update_initial_conditions`
from the hot-tank snapshot: `min(storage_capacity,
m_hot * cp * (T_tank_hot_init - htf_cold_design_temperature) * 1e-6 / 3600)`. -/
def initial_thermal_energy_storage_value
    (storage_capacity m_hot cp T_tank_hot_init htf_cold_design_temperature : ℚ) : ℚ :=
  min storage_capacity
    (m_hot * cp * (T_tank_hot_init - htf_cold_design_temperature)
      * (1/1000000) / 3600)

/-- The `available_thermal_generation` property setter: rejects the call
when the list length differs from the number of horizon blocks, otherwise
stores each period value rounded to `round_digits` decimal places
(`round_digits` lives in the `Dispatch` base class, outside this
repository's core file, and is kept as a parameter here). -/
def available_thermal_generation_set
    (n_blocks round_digits : ℕ) (values : List ℚ) : Except String (List ℚ) :=
  if values.length = n_blocks then
    Except.ok (values.map (pyRound round_digits))
  else
    Except.error "available_thermal_generation list must be the same length as time horizon"

/-- A concrete parameter assignment used by witnesses: unit period length,
all other parameters zero. -/
def exampleParams : CspParams where
  time_duration := 1
  storage_capacity := 0
  cost_per_field_generation := 0
  cost_per_field_start := 0
  available_thermal_generation := 0
  field_startup_losses := 0
  receiver_required_startup_energy := 0
  receiver_pumping_losses := 0
  minimum_receiver_power := 0
  allowable_receiver_startup_power := 0
  field_track_losses := 0
  cost_per_cycle_generation := 0
  cost_per_cycle_start := 0
  cost_per_change_thermal_input := 0
  cycle_ambient_efficiency_correction := 0
  condenser_losses := 0
  cycle_required_startup_energy := 0
  cycle_nominal_efficiency := 0
  cycle_performance_slope := 0
  cycle_pumping_losses := 0
  allowable_cycle_startup_power := 0
  minimum_cycle_thermal_power := 0
  maximum_cycle_thermal_power := 0
  maximum_cycle_power := 0

/-- `exampleParams` with the default minimum receiver power of the source
(`minimum_receiver_power = 1`) and no available resource. -/
def cutParams : CspParams :=
  { exampleParams with minimum_receiver_power := 1 }

/-- The all-zero block assignment (idle plant), used by witnesses. -/
def zeroBlock : CspBlock :=
  ⟨0, 0, 0, 0, 0, 0, 0, 0, 0, 0, 0, 0, 0, 0, 0, 0, 0, 0, 0, 0, 0, 0, 0⟩

/-- The all-zero horizon initial condition, used by witnesses. -/
def zeroInit : HorizonInit := ⟨0, 0, 0, 0, 0, 0, 0, 0⟩

/-- A two-period horizon whose blocks are all `zeroBlock`, used by witnesses. -/
def zeroBlocks : ℕ → CspBlock := fun _ => zeroBlock

/-- C2: in every feasible assignment of a period block, the change in stored
thermal energy over the period equals the period duration times receiver
output minus the cycle startup draw and the cycle thermal consumption
(constraint `storage_inventory`). -/
theorem storage_balance_of_feasible (p : CspParams) (b : CspBlock)
    (hf : blockFeasible p b) :
    b.thermal_energy_storage - b.previous_thermal_energy_storage =
      p.time_duration * (b.receiver_thermal_power
        - (p.allowable_cycle_startup_power * b.is_cycle_starting
           + b.cycle_thermal_power)) :=
  hf.2.1

/-- Witness for C2 at the idle plant with unit period length. -/
theorem storage_balance_of_feasible_witness :
    zeroBlock.thermal_energy_storage - zeroBlock.previous_thermal_energy_storage =
      exampleParams.time_duration * (zeroBlock.receiver_thermal_power
        - (exampleParams.allowable_cycle_startup_power * zeroBlock.is_cycle_starting
           + zeroBlock.cycle_thermal_power)) :=
  storage_balance_of_feasible exampleParams zeroBlock
    (by norm_num [blockFeasible, blockDomain, storage_constraints,
      receiver_constraints, cycle_constraints, isBinary, exampleParams, zeroBlock])

/-- C3: whenever the available thermal generation is strictly below the
(positive) minimum receiver power, the trivial-resource cuts
`receiver_startup_cut` and `receiver_generation_cut` force both field
binaries of any feasible assignment to zero. -/
theorem trivial_resource_cut_zero (p : CspParams) (b : CspBlock)
    (hmin : 0 < p.minimum_receiver_power)
    (havail : p.available_thermal_generation < p.minimum_receiver_power)
    (hf : blockFeasible p b) :
    b.is_field_starting = 0 ∧ b.is_field_generating = 0 := by
  obtain ⟨hdom, -, hrec, -⟩ := hf
  obtain ⟨-, -, -, -, -, -, -, hgb, hsb, -⟩ := hdom
  obtain ⟨-, -, -, -, -, hcut1, -, -, -, hcut2, -⟩ := hrec
  have hratio : p.available_thermal_generation / p.minimum_receiver_power < 1 :=
    (div_lt_one hmin).mpr havail
  constructor
  · rcases hsb with h | h
    · exact h
    · rw [h] at hcut1; linarith
  · rcases hgb with h | h
    · exact h
    · rw [h] at hcut2; linarith

/-- Witness for C3: default minimum receiver power 1, no resource, idle plant. -/
theorem trivial_resource_cut_zero_witness :
    zeroBlock.is_field_starting = 0 ∧ zeroBlock.is_field_generating = 0 :=
  trivial_resource_cut_zero cutParams zeroBlock
    (by norm_num [cutParams, exampleParams])
    (by norm_num [cutParams, exampleParams])
    (by norm_num [blockFeasible, blockDomain, storage_constraints,
      receiver_constraints, cycle_constraints, isBinary, cutParams, exampleParams,
      zeroBlock])

/-- C9: the reset constraints `receiver_startup_inventory_reset` and
`cycle_startup_inventory_reset`, together with the nonnegative variable
domains, force the startup inventories to exactly zero in any feasible
assignment whose corresponding starting flag is zero. -/
theorem startup_inventory_reset_zero (p : CspParams) (b : CspBlock)
    (hf : blockFeasible p b) :
    (b.is_field_starting = 0 → b.receiver_startup_inventory = 0) ∧
    (b.is_cycle_starting = 0 → b.cycle_startup_inventory = 0) := by
  obtain ⟨hdom, -, hrec, hcyc⟩ := hf
  obtain ⟨-, -, -, -, hrinv, -, -, -, -, -, -, -, -, -, hcinv, -⟩ := hdom
  constructor
  · intro h0
    have hle := hrec.2.1
    rw [h0, mul_zero] at hle
    exact le_antisymm hle hrinv
  · intro h0
    have hle := hcyc.2.1
    rw [h0, mul_zero] at hle
    exact le_antisymm hle hcinv

/-- Witness for C9 at the idle plant. -/
theorem startup_inventory_reset_zero_witness :
    zeroBlock.receiver_startup_inventory = 0 ∧ zeroBlock.cycle_startup_inventory = 0 := by
  have h := startup_inventory_reset_zero exampleParams zeroBlock
    (by norm_num [blockFeasible, blockDomain, storage_constraints,
      receiver_constraints, cycle_constraints, isBinary, exampleParams, zeroBlock])
  exact ⟨h.1 (by norm_num [zeroBlock]), h.2 (by norm_num [zeroBlock])⟩

/-- C1: the linking constraints make each block's previous-state variables
equal the preceding block's ending variables, and the first block's
previous-state variables equal the horizon-level initial parameters, for
all eight linked quantities. -/
theorem linking_constraints_thread (init : HorizonInit) (blocks : ℕ → CspBlock)
    (n : ℕ) (hl : linking_constraints init blocks n) :
    (0 < n →
      (blocks 0).previous_thermal_energy_storage = init.initial_thermal_energy_storage ∧
      (blocks 0).previous_receiver_startup_inventory = init.initial_receiver_startup_inventory ∧
      (blocks 0).was_field_generating = init.is_field_generating_initial ∧
      (blocks 0).was_field_starting = init.is_field_starting_initial ∧
      (blocks 0).previous_cycle_startup_inventory = init.initial_cycle_startup_inventory ∧
      (blocks 0).previous_cycle_thermal_power = init.initial_cycle_thermal_power ∧
      (blocks 0).was_cycle_generating = init.is_cycle_generating_initial ∧
      (blocks 0).was_cycle_starting = init.is_cycle_starting_initial) ∧
    (∀ t, 0 < t → t < n →
      (blocks t).previous_thermal_energy_storage = (blocks (t - 1)).thermal_energy_storage ∧
      (blocks t).previous_receiver_startup_inventory = (blocks (t - 1)).receiver_startup_inventory ∧
      (blocks t).was_field_generating = (blocks (t - 1)).is_field_generating ∧
      (blocks t).was_field_starting = (blocks (t - 1)).is_field_starting ∧
      (blocks t).previous_cycle_startup_inventory = (blocks (t - 1)).cycle_startup_inventory ∧
      (blocks t).previous_cycle_thermal_power = (blocks (t - 1)).cycle_thermal_power ∧
      (blocks t).was_cycle_generating = (blocks (t - 1)).is_cycle_generating ∧
      (blocks t).was_cycle_starting = (blocks (t - 1)).is_cycle_starting) := by
  constructor
  · intro hn
    have h := hl 0 hn
    simpa [tes_linking_rule, receiver_startup_inventory_linking_rule,
      field_generating_linking_rule, field_starting_linking_rule,
      cycle_startup_inventory_linking_rule, cycle_thermal_power_linking_rule,
      cycle_generating_linking_rule, cycle_starting_linking_rule] using h
  · intro t ht htn
    have h := hl t htn
    have hne : t ≠ 0 := Nat.pos_iff_ne_zero.mp ht
    simpa [tes_linking_rule, receiver_startup_inventory_linking_rule,
      field_generating_linking_rule, field_starting_linking_rule,
      cycle_startup_inventory_linking_rule, cycle_thermal_power_linking_rule,
      cycle_generating_linking_rule, cycle_starting_linking_rule, hne] using h

/-- Witness for C1 on a two-period all-idle horizon. -/
theorem linking_constraints_thread_witness :
    (zeroBlocks 1).previous_thermal_energy_storage = (zeroBlocks 0).thermal_energy_storage :=
  ((linking_constraints_thread zeroInit zeroBlocks 2
    (by
      intro t ht
      refine ⟨?_, ?_, ?_, ?_, ?_, ?_, ?_, ?_⟩ <;>
        simp [tes_linking_rule, receiver_startup_inventory_linking_rule,
          field_generating_linking_rule, field_starting_linking_rule,
          cycle_startup_inventory_linking_rule, cycle_thermal_power_linking_rule,
          cycle_generating_linking_rule, cycle_starting_linking_rule,
          zeroBlocks, zeroBlock, zeroInit])).2 1 (by norm_num) (by norm_num)).1

/-- In-range `getD` commutes with `map`. -/
theorem getD_map_of_lt (f : ℚ → ℚ) (l : List ℚ) (j : ℕ) (hj : j < l.length) :
    (l.map f).getD j 0 = f (l.getD j 0) := by
  rw [List.getD_eq_getElem _ _ (by simpa using hj), List.getD_eq_getElem _ _ hj,
    List.getElem_map]

/-- C6: the initial cycle startup inventory derived by
`update_initial_conditions` is exactly the required startup energy when the
reported remaining energy is NaN; otherwise it is the requirement minus the
reported remainder, clamped to at least 0, and snapped to exactly the
requirement when it exceeds `(1 - 1e-6)` times the requirement. -/
theorem initial_cycle_startup_inventory_spec (required remain : ℚ)
    (hreq : 0 ≤ required) :
    initial_cycle_startup_inventory_value required none = required ∧
    0 ≤ initial_cycle_startup_inventory_value required (some remain) ∧
    ((1 - 1/1000000) * required < max 0 (required - remain / 1000) →
      initial_cycle_startup_inventory_value required (some remain) = required) ∧
    (max 0 (required - remain / 1000) ≤ (1 - 1/1000000) * required →
      initial_cycle_startup_inventory_value required (some remain)
        = max 0 (required - remain / 1000)) := by
  refine ⟨rfl, ?_, ?_, ?_⟩
  · simp only [initial_cycle_startup_inventory_value]
    split_ifs with h
    · exact hreq
    · exact le_max_left 0 _
  · intro hlt
    simp only [initial_cycle_startup_inventory_value]
    rw [if_pos hlt]
  · intro hle
    simp only [initial_cycle_startup_inventory_value]
    rw [if_neg (not_lt.mpr hle)]

/-- Witness for C6: required energy 10 MWht, NaN remainder reported. -/
theorem initial_cycle_startup_inventory_spec_witness :
    initial_cycle_startup_inventory_value 10 none = 10 :=
  (initial_cycle_startup_inventory_spec 10 5 (by norm_num)).1

/-- Counterexample to C7 as stated: with hot-tank temperature below the cold
design temperature the derived initial storage energy is negative, because
the source only takes `min` with the capacity and never clamps below at 0. -/
theorem initial_storage_clamp_counterexample :
    ¬ (0 ≤ initial_thermal_energy_storage_value 100 3600000000 1 0 1 ∧
       initial_thermal_energy_storage_value 100 3600000000 1 0 1 ≤ 100) := by
  have h : initial_thermal_energy_storage_value 100 3600000000 1 0 1 = -1 := by
    norm_num [initial_thermal_energy_storage_value]
  rw [h]
  norm_num

/-- C7 (amended): for every snapshot the derived initial storage energy
never exceeds the capacity; it is additionally at least 0 whenever the
capacity and the hot-tank energy expression are nonnegative (the code takes
only `min` with the capacity and never clamps below at 0). -/
theorem initial_storage_clamp_amended (cap m c Th Tc : ℚ) :
    initial_thermal_energy_storage_value cap m c Th Tc ≤ cap ∧
    (0 ≤ cap → 0 ≤ m * c * (Th - Tc) →
      0 ≤ initial_thermal_energy_storage_value cap m c Th Tc) := by
  unfold initial_thermal_energy_storage_value
  refine ⟨min_le_left _ _, fun hcap hE => le_min hcap ?_⟩
  have h1 : (0:ℚ) ≤ m * c * (Th - Tc) * (1/1000000) :=
    mul_nonneg hE (by norm_num)
  exact div_nonneg h1 (by norm_num)

/-- Witness for C7 (amended): a hot tank above the cold design temperature. -/
theorem initial_storage_clamp_amended_witness :
    0 ≤ initial_thermal_energy_storage_value 100 2 3 5 1 :=
  (initial_storage_clamp_amended 100 2 3 5 1).2 (by norm_num) (by norm_num)

/-- C8: the per-period `available_thermal_generation` setter rejects the
call exactly when the list length differs from the horizon length, and
otherwise stores each period value rounded to `round_digits` decimals. -/
theorem available_thermal_generation_set_spec (n_blocks round_digits : ℕ)
    (values : List ℚ) (t : ℕ) (ht : t < values.length) :
    ((∃ msg, available_thermal_generation_set n_blocks round_digits values
        = Except.error msg) ↔ values.length ≠ n_blocks) ∧
    (values.length = n_blocks →
      available_thermal_generation_set n_blocks round_digits values
        = Except.ok (values.map (pyRound round_digits)) ∧
      (values.map (pyRound round_digits)).getD t 0
        = pyRound round_digits (values.getD t 0)) := by
  unfold available_thermal_generation_set
  split_ifs with h
  · refine ⟨⟨?_, fun hne => absurd h hne⟩, fun _ => ⟨rfl, getD_map_of_lt _ _ _ ht⟩⟩
    rintro ⟨msg, hmsg⟩
    simp at hmsg
  · refine ⟨⟨fun _ => h, fun _ => ⟨_, rfl⟩⟩, fun heq => absurd heq h⟩

/-- Witness for C8: a length-2 list on a 2-period horizon is accepted and
rounded. -/
theorem available_thermal_generation_set_spec_witness :
    available_thermal_generation_set 2 2 [1/3, 2/3]
      = Except.ok ([(1:ℚ)/3, 2/3].map (pyRound 2)) :=
  (((available_thermal_generation_set_spec 2 2 [1/3, 2/3] 0 (by simp)).2) (by simp)).1

/-- C10: with the no-table fallbacks (slope and per-period ambient
correction both the nominal efficiency, maximum cycle power the maximum
thermal power times the nominal efficiency), the intercept of the cycle
performance relation vanishes and the relation reduces to
`generation = nominal_efficiency * thermal_power`, independent of the
generating binary. -/
theorem fallback_constant_efficiency (eta maxThermal q_dot is_gen : ℚ)
    (n t : ℕ) (heta : eta ≠ 0) (ht : t < n) :
    cycle_performance_rhs (((ambient_correction_fallback eta n).1).getD t 0) eta
      (part_load_fallback eta maxThermal).1
      (part_load_fallback eta maxThermal).2
      maxThermal q_dot is_gen = eta * q_dot := by
  have hl : t < (List.replicate n eta).length := by simpa using ht
  have hget : ((ambient_correction_fallback eta n).1).getD t 0 = eta := by
    unfold ambient_correction_fallback
    rw [List.getD_eq_getElem _ _ hl]
    simp
  rw [hget]
  unfold cycle_performance_rhs part_load_fallback
  rw [div_self heta]
  ring

/-- Witness for C10 at nominal efficiency 2/5. -/
theorem fallback_constant_efficiency_witness :
    cycle_performance_rhs (((ambient_correction_fallback (2/5) 4).1).getD 2 0) (2/5)
      (part_load_fallback (2/5) 7).1 (part_load_fallback (2/5) 7).2
      7 3 1 = (2/5) * 3 :=
  fallback_constant_efficiency (2/5) 7 3 1 4 2 (by norm_num) (by norm_num)

/-- On the two-point table `[(0.2, 0.9), (1.0, 1.0)]` with operating range
`[0.2, 1.0]`, the linearization yields slope `41/40` and maximum cycle power
equal to the design thermal rating. -/
theorem set_linearized_example (q : ℚ) (hq : q ≠ 0) :
    set_linearized_cycle_part_load_params q (1/5) 1 q [1/5, 1] [9/10, 1]
      = (41/40, q) := by
  have e0 : part_load_endpoint_eta [1/5, 1] [9/10, 1] (1/5) = 9/10 := by
    norm_num [part_load_endpoint_eta, pytrunc]
  have e1 : part_load_endpoint_eta [1/5, 1] [9/10, 1] 1 = 1 := by
    norm_num [part_load_endpoint_eta, pytrunc]
  have h45 : 1 * q - 1/5 * q ≠ 0 := by
    intro h; apply hq; linarith
  simp only [set_linearized_cycle_part_load_params, e0, e1, Prod.mk.injEq]
  constructor
  · rw [div_eq_div_iff h45 (by norm_num : (40:ℚ) ≠ 0)]
    ring
  · ring

/-- C5: for the two-point load-efficiency table `[(0.2, 0.9), (1.0, 1.0)]`
and operating range `[0.2, 1.0]`, the slope and maximum power produced by
`set_linearized_cycle_part_load_params` make the cycle performance relation
(at `is_cycle_generating = 1` and ambient correction equal to the nominal
efficiency) reproduce exactly the two tabulated endpoint efficiencies. -/
theorem two_point_linearization_exact (q eta : ℚ) (hq : 0 < q) (heta : eta ≠ 0) :
    cycle_performance_rhs eta eta
      (set_linearized_cycle_part_load_params q (1/5) 1 q [1/5, 1] [9/10, 1]).1
      (set_linearized_cycle_part_load_params q (1/5) 1 q [1/5, 1] [9/10, 1]).2
      q ((1/5) * q) 1 = (9/10) * ((1/5) * q) ∧
    cycle_performance_rhs eta eta
      (set_linearized_cycle_part_load_params q (1/5) 1 q [1/5, 1] [9/10, 1]).1
      (set_linearized_cycle_part_load_params q (1/5) 1 q [1/5, 1] [9/10, 1]).2
      q q 1 = 1 * q := by
  rw [set_linearized_example q (ne_of_gt hq)]
  unfold cycle_performance_rhs
  rw [div_self heta]
  dsimp only
  constructor <;> ring

/-- Witness for C5 at design rating 100 MWt, nominal efficiency 2/5. -/
theorem two_point_linearization_exact_witness :
    cycle_performance_rhs (2/5) (2/5)
      (set_linearized_cycle_part_load_params 100 (1/5) 1 100 [1/5, 1] [9/10, 1]).1
      (set_linearized_cycle_part_load_params 100 (1/5) 1 100 [1/5, 1] [9/10, 1]).2
      100 ((1/5) * 100) 1 = (9/10) * ((1/5) * 100) :=
  (two_point_linearization_exact 100 (2/5) (by norm_num) (by norm_num)).1

/-- Under uniform breakpoint spacing, the k-th breakpoint is the first one
plus k steps. -/
theorem uniform_getD (Tpts : List ℚ)
    (huni : ∀ i, i + 1 < Tpts.length →
      Tpts.getD (i + 1) 0 = Tpts.getD i 0 + (Tpts.getD 1 0 - Tpts.getD 0 0)) :
    ∀ k, k < Tpts.length →
      Tpts.getD k 0 = Tpts.getD 0 0
        + k * (Tpts.getD 1 0 - Tpts.getD 0 0) := by
  intro k
  induction k with
  | zero => intro _; simp
  | succ m ih =>
    intro hk
    have hm : m < Tpts.length := Nat.lt_of_succ_lt hk
    rw [huni m hk, ih hm]
    push_cast
    ring

/-- Querying a uniformly spaced table at its k-th breakpoint produces the
lookup index `min k (npts - 2)`. -/
theorem ambient_index_at_breakpoint (Tpts : List ℚ) (hn : 2 ≤ Tpts.length)
    (hstep : 0 < Tpts.getD 1 0 - Tpts.getD 0 0)
    (huni : ∀ i, i + 1 < Tpts.length →
      Tpts.getD (i + 1) 0 = Tpts.getD i 0 + (Tpts.getD 1 0 - Tpts.getD 0 0))
    (k : ℕ) (hk : k < Tpts.length) :
    ambient_index Tpts (Tpts.getD k 0) = min k (Tpts.length - 2) := by
  simp only [ambient_index]
  have hS : Tpts.getD 1 0 - Tpts.getD 0 0 ≠ 0 := ne_of_gt hstep
  have hq : (Tpts.getD k 0 - Tpts.getD 0 0)
      / (Tpts.getD 1 0 - Tpts.getD 0 0) = (k : ℚ) := by
    rw [uniform_getD Tpts huni k hk, add_sub_cancel_left, mul_div_assoc,
      div_self hS, mul_one]
  rw [hq]
  have htr : pytrunc (k : ℚ) = (k : ℤ) := by
    unfold pytrunc
    rw [if_pos (Nat.cast_nonneg k)]
    exact_mod_cast Int.floor_natCast k
  rw [htr]
  omega

/-- Interpolating a uniformly spaced table exactly at a breakpoint returns
that breakpoint's tabulated value (including the last breakpoint, where the
clamped index makes the interpolation ratio equal 1). -/
theorem ambient_interp_at_breakpoint (Tpts ypts : List ℚ) (hn : 2 ≤ Tpts.length)
    (hstep : 0 < Tpts.getD 1 0 - Tpts.getD 0 0)
    (huni : ∀ i, i + 1 < Tpts.length →
      Tpts.getD (i + 1) 0 = Tpts.getD i 0 + (Tpts.getD 1 0 - Tpts.getD 0 0))
    (k : ℕ) (hk : k < Tpts.length) :
    ambient_interp Tpts ypts (Tpts.getD k 0) = ypts.getD k 0 := by
  simp only [ambient_interp]
  rw [ambient_index_at_breakpoint Tpts hn hstep huni k hk]
  by_cases hk2 : k ≤ Tpts.length - 2
  · rw [min_eq_left hk2, sub_self, zero_div, mul_zero, add_zero]
  · have hk1 : k = Tpts.length - 1 := by omega
    rw [min_eq_right (by omega : Tpts.length - 2 ≤ k)]
    have hTk := uniform_getD Tpts huni k hk
    have hTk2 := uniform_getD Tpts huni (Tpts.length - 2) (by omega)
    have hr : (Tpts.getD k 0 - Tpts.getD (Tpts.length - 2) 0)
        / (Tpts.getD 1 0 - Tpts.getD 0 0) = 1 := by
      rw [hTk, hTk2, hk1]
      rw [Nat.cast_sub (by omega : 1 ≤ Tpts.length),
        Nat.cast_sub (by omega : 2 ≤ Tpts.length)]
      have hS : Tpts.getD 1 0 - Tpts.getD 0 0 ≠ 0 := ne_of_gt hstep
      rw [div_eq_iff hS]
      ring
    rw [hr, mul_one]
    have h21 : Tpts.length - 2 + 1 = Tpts.length - 1 := by omega
    rw [h21, hk1]
    ring

/-- A query below the first breakpoint clamps the lookup index to 0 and
returns the linear extrapolation of the first segment. -/
theorem ambient_interp_below (Tpts ypts : List ℚ)
    (hstep : 0 < Tpts.getD 1 0 - Tpts.getD 0 0)
    (T : ℚ) (hT : T < Tpts.getD 0 0) :
    ambient_interp Tpts ypts T =
      ypts.getD 0 0 + (ypts.getD 1 0 - ypts.getD 0 0)
        * ((T - Tpts.getD 0 0) / (Tpts.getD 1 0 - Tpts.getD 0 0)) := by
  have hq : (T - Tpts.getD 0 0) / (Tpts.getD 1 0 - Tpts.getD 0 0) < 0 :=
    div_neg_of_neg_of_pos (by linarith) hstep
  have htr : pytrunc ((T - Tpts.getD 0 0) / (Tpts.getD 1 0 - Tpts.getD 0 0)) ≤ 0 := by
    unfold pytrunc
    split_ifs with h
    · exact absurd h (not_le.mpr hq)
    · exact Int.ceil_le.mpr (by exact_mod_cast le_of_lt hq)
  have hidx : ambient_index Tpts T = 0 := by
    simp only [ambient_index]
    omega
  simp only [ambient_interp]
  rw [hidx]

/-- A query above the last breakpoint of a uniformly spaced table clamps the
lookup index to `npts - 2` and returns the linear extrapolation of the last
segment. -/
theorem ambient_interp_above (Tpts ypts : List ℚ) (hn : 2 ≤ Tpts.length)
    (hstep : 0 < Tpts.getD 1 0 - Tpts.getD 0 0)
    (huni : ∀ i, i + 1 < Tpts.length →
      Tpts.getD (i + 1) 0 = Tpts.getD i 0 + (Tpts.getD 1 0 - Tpts.getD 0 0))
    (T : ℚ) (hT : Tpts.getD (Tpts.length - 1) 0 < T) :
    ambient_interp Tpts ypts T =
      ypts.getD (Tpts.length - 2) 0
        + (ypts.getD (Tpts.length - 1) 0 - ypts.getD (Tpts.length - 2) 0)
          * ((T - Tpts.getD (Tpts.length - 2) 0)
             / (Tpts.getD 1 0 - Tpts.getD 0 0)) := by
  have hlast := uniform_getD Tpts huni (Tpts.length - 1) (by omega)
  have hcast : ((Tpts.length - 1 : ℕ) : ℚ) = (Tpts.length : ℚ) - 1 := by
    rw [Nat.cast_sub (by omega : 1 ≤ Tpts.length)]
    norm_num
  have hq : ((Tpts.length : ℚ) - 1)
      < (T - Tpts.getD 0 0) / (Tpts.getD 1 0 - Tpts.getD 0 0) := by
    rw [lt_div_iff₀ hstep]
    rw [hlast, hcast] at hT
    linarith
  have hn2 : (2:ℚ) ≤ (Tpts.length : ℚ) := by exact_mod_cast hn
  have hfloor : (Tpts.length : ℤ) - 1
      ≤ pytrunc ((T - Tpts.getD 0 0) / (Tpts.getD 1 0 - Tpts.getD 0 0)) := by
    unfold pytrunc
    rw [if_pos (by linarith : (0:ℚ)
      ≤ (T - Tpts.getD 0 0) / (Tpts.getD 1 0 - Tpts.getD 0 0))]
    rw [Int.le_floor]
    push_cast
    linarith
  have hidx : ambient_index Tpts T = Tpts.length - 2 := by
    simp only [ambient_index]
    omega
  simp only [ambient_interp]
  rw [hidx]
  have h21 : Tpts.length - 2 + 1 = Tpts.length - 1 := by omega
  rw [h21]

/-- The clamped lookup index never reaches past the second-to-last
breakpoint, so both table accesses `i` and `i + 1` stay in range. -/
theorem ambient_index_lt (Tpts : List ℚ) (hn : 2 ≤ Tpts.length) (T : ℚ) :
    ambient_index Tpts T + 1 < Tpts.length := by
  simp only [ambient_index]
  omega

/-- C4 (amended): for a table whose breakpoints are uniformly spaced with
positive step, `set_cycle_ambient_corrections` returns, at a query equal to
a breakpoint, exactly that breakpoint's tabulated efficiency-correction and
condenser-loss values; below the first or above the last breakpoint it
returns the boundary segment's linear extrapolation; and the lookup index
is clamped so both table accesses stay in range. -/
theorem set_cycle_ambient_corrections_spec
    (Tdb Tpts etapts wcondfpts : List ℚ)
    (hn : 2 ≤ Tpts.length)
    (hstep : 0 < Tpts.getD 1 0 - Tpts.getD 0 0)
    (huni : ∀ i, i + 1 < Tpts.length →
      Tpts.getD (i + 1) 0 = Tpts.getD i 0 + (Tpts.getD 1 0 - Tpts.getD 0 0))
    (j : ℕ) (hj : j < Tdb.length) :
    (∀ k < Tpts.length, Tdb.getD j 0 = Tpts.getD k 0 →
      ((set_cycle_ambient_corrections Tdb Tpts etapts wcondfpts).1).getD j 0
        = etapts.getD k 0 ∧
      ((set_cycle_ambient_corrections Tdb Tpts etapts wcondfpts).2).getD j 0
        = wcondfpts.getD k 0) ∧
    (Tdb.getD j 0 < Tpts.getD 0 0 →
      ((set_cycle_ambient_corrections Tdb Tpts etapts wcondfpts).1).getD j 0
        = etapts.getD 0 0 + (etapts.getD 1 0 - etapts.getD 0 0)
            * ((Tdb.getD j 0 - Tpts.getD 0 0) / (Tpts.getD 1 0 - Tpts.getD 0 0)) ∧
      ((set_cycle_ambient_corrections Tdb Tpts etapts wcondfpts).2).getD j 0
        = wcondfpts.getD 0 0 + (wcondfpts.getD 1 0 - wcondfpts.getD 0 0)
            * ((Tdb.getD j 0 - Tpts.getD 0 0) / (Tpts.getD 1 0 - Tpts.getD 0 0))) ∧
    (Tpts.getD (Tpts.length - 1) 0 < Tdb.getD j 0 →
      ((set_cycle_ambient_corrections Tdb Tpts etapts wcondfpts).1).getD j 0
        = etapts.getD (Tpts.length - 2) 0
            + (etapts.getD (Tpts.length - 1) 0 - etapts.getD (Tpts.length - 2) 0)
              * ((Tdb.getD j 0 - Tpts.getD (Tpts.length - 2) 0)
                 / (Tpts.getD 1 0 - Tpts.getD 0 0)) ∧
      ((set_cycle_ambient_corrections Tdb Tpts etapts wcondfpts).2).getD j 0
        = wcondfpts.getD (Tpts.length - 2) 0
            + (wcondfpts.getD (Tpts.length - 1) 0 - wcondfpts.getD (Tpts.length - 2) 0)
              * ((Tdb.getD j 0 - Tpts.getD (Tpts.length - 2) 0)
                 / (Tpts.getD 1 0 - Tpts.getD 0 0))) ∧
    ambient_index Tpts (Tdb.getD j 0) + 1 < Tpts.length := by
  have hmap1 : ((set_cycle_ambient_corrections Tdb Tpts etapts wcondfpts).1).getD j 0
      = ambient_interp Tpts etapts (Tdb.getD j 0) := by
    simp only [set_cycle_ambient_corrections]
    exact getD_map_of_lt _ _ _ hj
  have hmap2 : ((set_cycle_ambient_corrections Tdb Tpts etapts wcondfpts).2).getD j 0
      = ambient_interp Tpts wcondfpts (Tdb.getD j 0) := by
    simp only [set_cycle_ambient_corrections]
    exact getD_map_of_lt _ _ _ hj
  refine ⟨?_, ?_, ?_, ambient_index_lt Tpts hn _⟩
  · intro k hk he
    rw [hmap1, hmap2, he]
    exact ⟨ambient_interp_at_breakpoint Tpts etapts hn hstep huni k hk,
      ambient_interp_at_breakpoint Tpts wcondfpts hn hstep huni k hk⟩
  · intro hbelow
    rw [hmap1, hmap2]
    exact ⟨ambient_interp_below Tpts etapts hstep _ hbelow,
      ambient_interp_below Tpts wcondfpts hstep _ hbelow⟩
  · intro habove
    rw [hmap1, hmap2]
    exact ⟨ambient_interp_above Tpts etapts hn hstep huni _ habove,
      ambient_interp_above Tpts wcondfpts hn hstep huni _ habove⟩

/-- Witness for C4 (amended) on the uniform table with breakpoints
`[0, 1, 2]`, querying exactly at the middle breakpoint. -/
theorem set_cycle_ambient_corrections_spec_witness :
    ((set_cycle_ambient_corrections [1] [0, 1, 2] [5, 7, 11] [2, 3, 4]).1).getD 0 0
      = [(5:ℚ), 7, 11].getD 1 0 :=
  (((set_cycle_ambient_corrections_spec [1] [0, 1, 2] [5, 7, 11] [2, 3, 4]
      (by norm_num) (by norm_num)
      (by
        intro i hi
        simp only [List.length_cons, List.length_nil] at hi
        have hi2 : i < 2 := by omega
        interval_cases i <;> norm_num)
      0 (by norm_num)).1) 1 (by norm_num) (by norm_num)).1

/-- Counterexample to C4 as stated: over the strictly increasing but
non-uniform breakpoints `[0, 1, 3]`, querying exactly at the last
breakpoint does not return its tabulated value, because the code uses the
first interval's width as the step for every lookup and interpolation. -/
theorem set_cycle_ambient_corrections_counterexample :
    ([(0:ℚ), 1, 3].getD 0 0 < [(0:ℚ), 1, 3].getD 1 0 ∧
     [(0:ℚ), 1, 3].getD 1 0 < [(0:ℚ), 1, 3].getD 2 0) ∧
    [(3:ℚ)].getD 0 0 = [(0:ℚ), 1, 3].getD 2 0 ∧
    ((set_cycle_ambient_corrections [3] [0, 1, 3] [0, 1, 0] [0, 0, 0]).1).getD 0 0
      ≠ [(0:ℚ), 1, 0].getD 2 0 := by
  refine ⟨⟨by norm_num, by norm_num⟩, by norm_num, ?_⟩
  have h : ((set_cycle_ambient_corrections [3] [0, 1, 3] [0, 1, 0] [0, 0, 0]).1).getD 0 0
      = -1 := by
    norm_num [set_cycle_ambient_corrections, ambient_interp, ambient_index, pytrunc]
  rw [h]
  norm_num
